import Mathlib

/-! Verification of the blast-design simulator (src/app.py): reference tables,
formula library, blast-plan evaluation and the comparative sweep engine, as a
shallow embedding over the reals. -/

namespace Simulador

/-- Explosive densities in g/cm³, keyed by name (source: dict `explosivos`). -/
noncomputable def explosivos : List (String × ℝ) :=
  [("ANFO", 0.90), ("Dinamite granulada", 1.1), ("Dinamite gelatina", 1.4),
   ("Lama encartuchada", 1.2)]

/-- Rock-mass blastability coefficients A (source: dict `macicos`). -/
noncomputable def macicos : List (String × ℝ) :=
  [("Rocha friável de baixa dureza", 3), ("Rocha branda e pouco fraturada", 5),
   ("Rocha dura e altamente fraturada", 10), ("Rocha altamente dura e pouco fraturada", 12)]

/-- Pattern classes with their burden B in m (source: dict `malha`), in
catalog (insertion) order: Aberta then Fechada. -/
noncomputable def malha : List (String × ℝ) := [("Aberta", 6.5), ("Fechada", 3)]

/-- Spacing formula (source: `calcular_espacamento(H, B)`). -/
noncomputable def calcular_espacamento (H B : ℝ) : ℝ := 0.23 * (H + 2 * B)

/-- Charge mass per hole in kg (source: `calcular_qe(densidade, diametro, altura_total)`).
The intermediate names mirror the source's unit chain. -/
noncomputable def calcular_qe (densidade diametro altura_total : ℝ) : ℝ :=
  let diametro_cm := diametro / 10
  let area_cm2 := (Real.pi / 4) * diametro_cm ^ 2
  let massa_linear_g_cm := area_cm2 * densidade
  let comprimento_cm := altura_total * 100
  let massa_total_g := massa_linear_g_cm * comprimento_cm
  massa_total_g / 1000

/-- Kuz-Ram mean fragment size in cm (source: `calcular_x50(A, K, Qe)`); the
Python float powers `K**-0.8` and `Qe**(1/6)` are real powers (rpow). -/
noncomputable def calcular_x50 (A K Qe : ℝ) : ℝ :=
  A * K ^ (-0.8 : ℝ) * Qe ^ ((1 : ℝ) / 6)

/-- Fixed hole diameter in mm (source: `diametro = 76.2`). -/
noncomputable def diametro : ℝ := 76.2

/-- Fixed subdrill in m (source: `subperf = 0.6`). -/
noncomputable def subperf : ℝ := 0.6

/-- Fixed hole inclination in degrees (source: `inclinacao = 15`). -/
noncomputable def inclinacao : ℝ := 15

/-- Inclination in radians (source: `np.radians(inclinacao)`). -/
noncomputable def inclinacao_rad : ℝ := inclinacao * Real.pi / 180

/-- Total drilled hole length in m (source: `altura_total = (altura + subperf) / np.cos(...)`). -/
noncomputable def altura_total (altura : ℝ) : ℝ :=
  (altura + subperf) / Real.cos inclinacao_rad

/-- Uniformity index n (source: the module-level `n = ...` computation,
parameterized over its inputs). The Python `(...)**0.5` is a real power. -/
noncomputable def uniformity_index (afastamento S D W L altura : ℝ) : ℝ :=
  (2.2 - 14 * (afastamento / D)) * ((1 + (S / afastamento) / 2) ^ (0.5 : ℝ)) *
    ((1 - W / afastamento) * (L / altura))

/-- Rosin-Rammler percent passing (source: `R = np.exp(-0.693 * (x_mm / X50_temp)**n)`,
`P = 100 * (1 - R)`). -/
noncomputable def percent_passing (x X50 n : ℝ) : ℝ :=
  100 * (1 - Real.exp (-0.693 * (x / X50) ^ n))

/-- The full derived result of one primary evaluation (source: module-level
lines computing `S`, `Qe`, `n_furos`, `massa_total`, `V`, `K`, `X50`, `n`). -/
structure BlastPlanResult where
  altura_total : ℝ
  S : ℝ
  Qe : ℝ
  n_furos : ℕ
  massa_total : ℝ
  V : ℝ
  K : ℝ
  X50_mm : ℝ
  n_RR : ℝ

/-- The Blast Plan Calculator: one full evaluation, in the source's order.
Lean's total division stands in for Python's here; the zero-denominator case
is handled separately by `evaluate`. -/
noncomputable def evaluateResult (densidade A afastamento altura : ℝ)
    (furos_linha linhas : ℕ) : BlastPlanResult :=
  let S := calcular_espacamento altura afastamento
  let Qe := calcular_qe densidade diametro (altura_total altura)
  let n_furos := furos_linha * linhas
  let massa_total := Qe * (n_furos : ℝ)
  let V := S * afastamento * altura
  let K := Qe / V
  { altura_total := altura_total altura
    S := S
    Qe := Qe
    n_furos := n_furos
    massa_total := massa_total
    V := V
    K := K
    X50_mm := calcular_x50 A K Qe * 10
    n_RR := uniformity_index afastamento S diametro 0.1 (altura_total altura) altura }

/-- The values a numpy float64 scalar can take in this script: a finite real,
a signed infinity, or NaN. (Overflow of finite values and the sign of zero are
not modelled — the reals idealize finite float arithmetic throughout the file.) -/
inductive PyFloat where
  | fin : ℝ → PyFloat
  | posInf : PyFloat
  | negInf : PyFloat
  | nan : PyFloat

/-- numpy float64 division of two finite scalars (source line 78 `K = Qe / V`:
`Qe` is np.float64 because `altura_total` comes through `np.cos`, so a zero
denominator emits a RuntimeWarning and yields ±inf or nan — it does not raise). -/
noncomputable def npdiv (a b : ℝ) : PyFloat :=
  if b = 0 then
    if 0 < a then PyFloat.posInf else if a < 0 then PyFloat.negInf else PyFloat.nan
  else PyFloat.fin (a / b)

/-- IEEE-754 float power `x ** e` for the non-integer exponents this script
uses (-0.8 and 1/6): `inf ** e = 0` for `e < 0`, a zero base with `e < 0`
gives +inf (numpy warns, it does not raise), a negative base with a
non-integer exponent gives nan. -/
noncomputable def nppow (x : PyFloat) (e : ℝ) : PyFloat :=
  match x with
  | PyFloat.fin a =>
      if 0 < a then PyFloat.fin (a ^ e)
      else if a = 0 then
        (if e < 0 then PyFloat.posInf else if e = 0 then PyFloat.fin 1 else PyFloat.fin 0)
      else PyFloat.nan
  | PyFloat.posInf =>
      if e < 0 then PyFloat.fin 0 else if e = 0 then PyFloat.fin 1 else PyFloat.posInf
  | PyFloat.negInf =>
      if e < 0 then PyFloat.fin 0 else if e = 0 then PyFloat.fin 1 else PyFloat.posInf
  | PyFloat.nan => if e = 0 then PyFloat.fin 1 else PyFloat.nan

/-- IEEE-754 float multiplication on the scalar values above. -/
noncomputable def npmul (x y : PyFloat) : PyFloat :=
  match x, y with
  | PyFloat.nan, _ => PyFloat.nan
  | _, PyFloat.nan => PyFloat.nan
  | PyFloat.fin a, PyFloat.fin b => PyFloat.fin (a * b)
  | PyFloat.fin a, PyFloat.posInf =>
      if 0 < a then PyFloat.posInf else if a < 0 then PyFloat.negInf else PyFloat.nan
  | PyFloat.fin a, PyFloat.negInf =>
      if 0 < a then PyFloat.negInf else if a < 0 then PyFloat.posInf else PyFloat.nan
  | PyFloat.posInf, PyFloat.fin b =>
      if 0 < b then PyFloat.posInf else if b < 0 then PyFloat.negInf else PyFloat.nan
  | PyFloat.negInf, PyFloat.fin b =>
      if 0 < b then PyFloat.negInf else if b < 0 then PyFloat.posInf else PyFloat.nan
  | PyFloat.posInf, PyFloat.posInf => PyFloat.posInf
  | PyFloat.posInf, PyFloat.negInf => PyFloat.negInf
  | PyFloat.negInf, PyFloat.posInf => PyFloat.negInf
  | PyFloat.negInf, PyFloat.negInf => PyFloat.posInf

/-- Source lines 79-80 over float semantics: `X50 = A * K**-0.8 * Qe**(1/6)`,
with `K` possibly nonfinite. -/
noncomputable def calcular_x50_py (A : ℝ) (K : PyFloat) (Qe : ℝ) : PyFloat :=
  npmul (npmul (PyFloat.fin A) (nppow K (-0.8))) (nppow (PyFloat.fin Qe) ((1 : ℝ) / 6))

/-- The labeled readouts the script renders at lines 84-90, before it ever
reaches the uniformity-index line; `K` and `X50_mm` are np.float64 and may be
nonfinite. -/
structure DisplayedPanel where
  altura_total : ℝ
  Qe : ℝ
  S : ℝ
  n_furos : ℕ
  massa_total : ℝ
  K : PyFloat
  X50_mm : PyFloat

/-- Outcome of running the script on one input. `ok`: every denominator is
nonzero and the whole evaluation is finite. `panelThenZeroDivisionCrash`: the
result panel (fields set, possibly with infinities) was displayed, then the
pure-Python uniformity-index line (app.py:109) divided by the zero
`afastamento` (or `altura`) and raised an uncaught ZeroDivisionError — a
crash after display. `panelThenCompletesNonfinite`: `V = 0` with nonzero
`afastamento` and `altura` (only possible when the spacing is 0, i.e.
`altura = -2·afastamento`, outside the UI domain): the script completes,
propagating nonfinite values; no claim concerns this branch.
`computationError` is the structured, reported error of the spec's taxonomy,
which the script never produces. -/
inductive EvalOutcome where
  | ok : BlastPlanResult → EvalOutcome
  | panelThenZeroDivisionCrash : DisplayedPanel → EvalOutcome
  | panelThenCompletesNonfinite : DisplayedPanel → EvalOutcome
  | computationError : EvalOutcome

/-- The script with float semantics: `K = Qe / V` is numpy float64 division
(warns on `V = 0`, yields ±inf/nan, never raises), `X50` follows over floats,
the panel of lines 84-90 is displayed, and only then does line 109 perform
pure-Python divisions by `afastamento` and `altura`, which raise
ZeroDivisionError when the divisor is zero. -/
noncomputable def evaluate (densidade A afastamento altura : ℝ)
    (furos_linha linhas : ℕ) : EvalOutcome :=
  let S := calcular_espacamento altura afastamento
  let Qe := calcular_qe densidade diametro (altura_total altura)
  let n_furos := furos_linha * linhas
  let V := S * afastamento * altura
  let K := npdiv Qe V
  let X50_mm := npmul (calcular_x50_py A K Qe) (PyFloat.fin 10)
  let panel : DisplayedPanel :=
    { altura_total := altura_total altura
      Qe := Qe
      S := S
      n_furos := n_furos
      massa_total := Qe * (n_furos : ℝ)
      K := K
      X50_mm := X50_mm }
  if V = 0 then
    if afastamento = 0 ∨ altura = 0 then EvalOutcome.panelThenZeroDivisionCrash panel
    else EvalOutcome.panelThenCompletesNonfinite panel
  else EvalOutcome.ok (evaluateResult densidade A afastamento altura furos_linha linhas)

/-- The 100 log-spaced sieve openings (source: `x_mm = np.logspace(0, 4, 100)`),
i.e. `10 ** (4*i/99)` for `i = 0, ..., 99`. -/
noncomputable def x_mm : List ℝ :=
  (List.range 100).map (fun i : ℕ => (10 : ℝ) ^ ((4 * (i : ℝ)) / 99))

/-- One labelled fragmentation curve of the comparison plot. -/
structure FragmentationCurve where
  name : String
  points : List (ℝ × ℝ)

set_option linter.unusedVariables false in
/-- The Comparative Sweep Engine (source: the `for nome, props in malha.items()`
loop). `S_temp`, `V_temp` and `K_temp` mirror the loop body; note the source's
`X50_temp = calcular_x50(A, K, Qe) * 10` uses the primary `K`, not `K_temp`. -/
noncomputable def sweep (A Qe K n altura : ℝ) : List FragmentationCurve :=
  malha.map fun entry =>
    let B := entry.2
    let S_temp := calcular_espacamento altura B
    let V_temp := S_temp * B * altura
    let K_temp := Qe / V_temp
    let X50_temp := calcular_x50 A K Qe * 10
    { name := "Malha " ++ entry.1
      points := x_mm.map fun x => (x, percent_passing x X50_temp n) }

/-- Modelled from the spec: the uniformity-index formula as §4.1 writes it,
with an explicit square root in place of the source's `**0.5`. -/
noncomputable def uniformity_index_spec (B S D W L H : ℝ) : ℝ :=
  (2.2 - 14 * (B / D)) * Real.sqrt (1 + (S / B) / 2) * ((1 - W / B) * (L / H))

/-- Per-entry powder factor of the sweep loop (source: lines
`S_temp = ...; V_temp = ...; K_temp = Qe / V_temp`), as a standalone function. -/
noncomputable def K_temp (Qe altura B : ℝ) : ℝ :=
  Qe / (calcular_espacamento altura B * B * altura)

/-- Primary charge mass at the concrete input used to exhibit the sweep slip:
ANFO (density 0.90), bench height 10 m. -/
noncomputable def Qe0 : ℝ := calcular_qe 0.9 diametro (altura_total 10)

/-- Primary powder factor at that input, with the selected pattern Aberta (B = 6.5). -/
noncomputable def K0 : ℝ := Qe0 / (calcular_espacamento 10 6.5 * 6.5 * 10)

/-- Primary uniformity index at that input. -/
noncomputable def n0 : ℝ :=
  uniformity_index 6.5 (calcular_espacamento 10 6.5) diametro 0.1 (altura_total 10) 10

/-- The panel the script displays at the concrete burden-zero input
(density 0.90, A = 3, H = 10, 5 holes per row, 4 rows): the powder factor
comes out +inf and the mean fragment size 0, and both are rendered. -/
noncomputable def panel0 : DisplayedPanel :=
  { altura_total := altura_total 10
    Qe := Qe0
    S := calcular_espacamento 10 0
    n_furos := 20
    massa_total := Qe0 * ((20 : ℕ) : ℝ)
    K := PyFloat.posInf
    X50_mm := PyFloat.fin 0 }

/-! Helper lemmas shared by the claim theorems. -/

theorem cos_inclinacao_pos : 0 < Real.cos inclinacao_rad := by
  have h : inclinacao_rad = Real.pi / 12 := by
    unfold inclinacao_rad inclinacao; ring
  rw [h]
  exact Real.cos_pos_of_mem_Ioo
    ⟨by nlinarith [Real.pi_pos], by nlinarith [Real.pi_pos]⟩

theorem altura_total_pos (H : ℝ) (hH : 0 < H) : 0 < altura_total H := by
  unfold altura_total subperf
  exact div_pos (by linarith) cos_inclinacao_pos

theorem Qe0_pos : 0 < Qe0 := by
  have h := altura_total_pos 10 (by norm_num)
  unfold Qe0 calcular_qe diametro
  positivity

theorem calcular_x50_py_posInf (A Qe : ℝ) (hQ : 0 < Qe) :
    npmul (calcular_x50_py A PyFloat.posInf Qe) (PyFloat.fin 10) = PyFloat.fin 0 := by
  norm_num [calcular_x50_py, nppow, npmul, hQ]

theorem x_mm_length : x_mm.length = 100 := by
  simp only [x_mm, List.length_map, List.length_range]

theorem x_mm_getElem? (i : ℕ) (hi : i < 100) :
    x_mm[i]? = some ((10 : ℝ) ^ ((4 * (i : ℝ)) / 99)) := by
  unfold x_mm
  rw [List.getElem?_map, List.getElem?_range hi]
  rfl

/-! Claim theorems. -/

/-- C8: spacing(H, B) equals 0.23 * (H + 2*B) for all inputs, with no bounds
enforced; in particular spacing(H=10, B=6.5) equals 5.29 within 1e-9. -/
theorem calcular_espacamento_formula_and_value :
    (∀ H B : ℝ, calcular_espacamento H B = 0.23 * (H + 2 * B))
    ∧ |calcular_espacamento 10 6.5 - 5.29| < 1e-9 := by
  refine ⟨fun H B => rfl, ?_⟩
  unfold calcular_espacamento
  rw [abs_lt]
  constructor <;> norm_num

/-- C4: charge_mass follows the exact unit chain (mm→cm diameter, area π/4·d²,
linear density area×density, length ×100, grams /1000 to kg), and
charge_mass(0.90, 76.2, 10.68) is within 0.05 of 43.83 kg. -/
theorem calcular_qe_unit_chain_and_value :
    (∀ dens dia comp : ℝ,
      calcular_qe dens dia comp =
        ((Real.pi / 4) * (dia / 10) ^ 2 * dens) * (comp * 100) / 1000)
    ∧ |calcular_qe 0.9 76.2 10.68 - 43.83| < 0.05 := by
  constructor
  · intro dens dia comp
    simp only [calcular_qe]
  · simp only [calcular_qe]
    rw [abs_lt]
    constructor <;> nlinarith [Real.pi_gt_d6, Real.pi_lt_d6]

/-- C3: the uniformity index is
n = (2.2 - 14*(B/D)) * sqrt(1 + (S/B)/2) * ((1 - W/B) * (L/H)), with the
diameter in mm against burden/spacing/lengths in m (the mismatch preserved:
the calculator passes `diametro` = 76.2 mm unconverted), and the calculator
invokes it with W = 0.1 fixed and charge length equal to the total hole length. -/
theorem uniformity_index_formula_and_wiring :
    (∀ B S D W L H : ℝ,
      uniformity_index B S D W L H = uniformity_index_spec B S D W L H)
    ∧ diametro = 76.2
    ∧ ∀ dens A afast alt : ℝ, ∀ fl lin : ℕ,
        (evaluateResult dens A afast alt fl lin).n_RR =
          uniformity_index afast (calcular_espacamento alt afast) diametro 0.1
            (altura_total alt) alt := by
  refine ⟨fun B S D W L H => ?_, rfl, fun dens A afast alt fl lin => rfl⟩
  unfold uniformity_index uniformity_index_spec
  rw [Real.sqrt_eq_rpow]
  norm_num

theorem exp_le_inv_one_sub (x : ℝ) (hx1 : x < 1) : Real.exp x ≤ 1 / (1 - x) := by
  have h := Real.add_one_le_exp (-x)
  have hpos := Real.exp_pos x
  have hinv : Real.exp (-x) * Real.exp x = 1 := by
    rw [← Real.exp_add]; simp
  rw [le_div_iff₀ (by linarith)]
  nlinarith

theorem exp_neg_693_gt : 0.5 < Real.exp (-0.693) := by
  have h := Real.log_two_gt_d9
  have hlt : -Real.log 2 < -0.693 := by linarith
  have := Real.exp_lt_exp.mpr hlt
  rw [Real.exp_neg, Real.exp_log (by norm_num : (0:ℝ) < 2)] at this
  linarith

theorem exp_neg_693_lt : Real.exp (-0.693) < 0.501 := by
  have hd1 := Real.log_two_gt_d9
  have hd2 := Real.log_two_lt_d9
  have key : Real.exp (Real.log 2 - 0.693) = 2 * Real.exp (-0.693) := by
    rw [sub_eq_add_neg, Real.exp_add, Real.exp_log (by norm_num : (0:ℝ) < 2)]
  have hb := exp_le_inv_one_sub (Real.log 2 - 0.693) (by linarith)
  have harith : 1 / (1 - (Real.log 2 - 0.693)) < 1.002 := by
    rw [div_lt_iff₀ (by linarith)]
    nlinarith
  linarith

/-- C5: for fixed X50 > 0 and n > 0, percent_passing is monotonically
non-decreasing in the sieve opening x over x ≥ 0, and its value lies in [0, 100]. -/
theorem percent_passing_monotone_and_bounded (X50 n : ℝ) (hX : 0 < X50) (hn : 0 < n) :
    (∀ x₁ x₂ : ℝ, 0 ≤ x₁ → x₁ ≤ x₂ →
      percent_passing x₁ X50 n ≤ percent_passing x₂ X50 n)
    ∧ ∀ x : ℝ, 0 ≤ x →
        0 ≤ percent_passing x X50 n ∧ percent_passing x X50 n ≤ 100 := by
  constructor
  · intro x₁ x₂ h0 h12
    unfold percent_passing
    have ht0 : 0 ≤ x₁ / X50 := div_nonneg h0 hX.le
    have ht : x₁ / X50 ≤ x₂ / X50 := by gcongr
    have hr : (x₁ / X50) ^ n ≤ (x₂ / X50) ^ n := Real.rpow_le_rpow ht0 ht hn.le
    have he : Real.exp (-0.693 * (x₂ / X50) ^ n) ≤ Real.exp (-0.693 * (x₁ / X50) ^ n) :=
      Real.exp_le_exp.mpr (by nlinarith)
    linarith
  · intro x hx
    unfold percent_passing
    have ht : 0 ≤ (x / X50) ^ n := Real.rpow_nonneg (div_nonneg hx hX.le) n
    have hle1 : Real.exp (-0.693 * (x / X50) ^ n) ≤ 1 := by
      rw [show (1:ℝ) = Real.exp 0 from Real.exp_zero.symm]
      exact Real.exp_le_exp.mpr (by nlinarith)
    have hpos := Real.exp_pos (-0.693 * (x / X50) ^ n)
    constructor <;> nlinarith

/-- C5 witness: monotonicity and bounds instantiated at X50 = 1, n = 1,
x₁ = 0, x₂ = 2. -/
theorem percent_passing_monotone_and_bounded_witness :
    percent_passing 0 1 1 ≤ percent_passing 2 1 1
    ∧ 0 ≤ percent_passing 2 1 1 ∧ percent_passing 2 1 1 ≤ 100 := by
  obtain ⟨hm, hb⟩ := percent_passing_monotone_and_bounded 1 1 one_pos one_pos
  exact ⟨hm 0 2 le_rfl (by norm_num), hb 2 (by norm_num)⟩

/-- C6: for every X50 > 0 and n > 0, percent_passing at x = X50 equals
100*(1 - exp(-0.693)), which is approximately 50 percent (strictly between
49.9 and 50), and percent_passing(0, X50, n) = 0. -/
theorem percent_passing_at_X50_and_at_zero (X50 n : ℝ) (hX : 0 < X50) (hn : 0 < n) :
    percent_passing X50 X50 n = 100 * (1 - Real.exp (-0.693))
    ∧ 49.9 < percent_passing X50 X50 n
    ∧ percent_passing X50 X50 n < 50
    ∧ percent_passing 0 X50 n = 0 := by
  have h1 : percent_passing X50 X50 n = 100 * (1 - Real.exp (-0.693)) := by
    unfold percent_passing
    rw [div_self (ne_of_gt hX), Real.one_rpow]
    norm_num
  have h0 : percent_passing 0 X50 n = 0 := by
    unfold percent_passing
    rw [zero_div, Real.zero_rpow (ne_of_gt hn)]
    norm_num
  refine ⟨h1, ?_, ?_, h0⟩ <;> rw [h1]
  · linarith [exp_neg_693_lt]
  · linarith [exp_neg_693_gt]

/-- C6 witness: the 50%-passing property and the x = 0 case at X50 = 1, n = 1. -/
theorem percent_passing_at_X50_and_at_zero_witness :
    percent_passing 1 1 1 = 100 * (1 - Real.exp (-0.693))
    ∧ percent_passing 0 1 1 = 0 := by
  obtain ⟨h1, _, _, h4⟩ := percent_passing_at_X50_and_at_zero 1 1 one_pos one_pos
  exact ⟨h1, h4⟩

/-- C2 counterexample: at the concrete input burden = 0 (ANFO density 0.90,
A = 3, H = 10, 5 holes per row, 4 rows) the powder-factor division is numpy
float64 division by zero: the script displays the full result panel with
K = +inf and X50 = 0 — an infinity reaches the Presentation Layer with the
result fields set — and then raises an uncaught ZeroDivisionError at the
uniformity-index line; it never signals the reported ComputationError the
claim describes. -/
theorem evaluate_burden_zero_counterexample :
    evaluate 0.9 3 0 10 5 4 = EvalOutcome.panelThenZeroDivisionCrash panel0
    ∧ panel0.K = PyFloat.posInf
    ∧ EvalOutcome.panelThenZeroDivisionCrash panel0 ≠ EvalOutcome.computationError := by
  have hQ : (0 : ℝ) < calcular_qe 0.9 diametro (altura_total 10) := Qe0_pos
  have hV : calcular_espacamento 10 0 * 0 * 10 = (0 : ℝ) := by ring
  have hK : npdiv (calcular_qe 0.9 diametro (altura_total 10)) 0 = PyFloat.posInf := by
    simp [npdiv, hQ]
  refine ⟨?_, rfl, fun h => EvalOutcome.noConfusion h⟩
  simp only [evaluate, hV, true_or, if_true]
  rw [hK, calcular_x50_py_posInf 3 _ hQ]
  norm_num [panel0, Qe0, EvalOutcome.panelThenZeroDivisionCrash.injEq,
    DisplayedPanel.mk.injEq]

/-- C2 amended: for every input with burden = 0 (and the charge mass positive,
as it is for every catalog density), the powder-factor computation K = Qe / V
is numpy float64 division by zero: it emits a RuntimeWarning and yields
K = +inf, X50 becomes 0, and these values are displayed — an infinity reaches
the Presentation Layer with the result fields set — after which the script
raises an uncaught ZeroDivisionError at the pure-Python uniformity-index line;
no structured ComputationError is ever reported. -/
theorem evaluate_burden_zero_displays_inf_then_crashes (dens alt A : ℝ) (fl lin : ℕ)
    (hQ : 0 < calcular_qe dens diametro (altura_total alt)) :
    ∃ p : DisplayedPanel,
      evaluate dens A 0 alt fl lin = EvalOutcome.panelThenZeroDivisionCrash p
      ∧ p.K = PyFloat.posInf
      ∧ p.X50_mm = PyFloat.fin 0 := by
  have hV : calcular_espacamento alt 0 * 0 * alt = (0 : ℝ) := by ring
  have hK : npdiv (calcular_qe dens diametro (altura_total alt)) 0 = PyFloat.posInf := by
    simp [npdiv, hQ]
  refine ⟨⟨altura_total alt, calcular_qe dens diametro (altura_total alt),
      calcular_espacamento alt 0, fl * lin,
      calcular_qe dens diametro (altura_total alt) * ((fl * lin : ℕ) : ℝ),
      PyFloat.posInf, PyFloat.fin 0⟩, ?_, rfl, rfl⟩
  simp only [evaluate, hV, true_or, if_true]
  norm_num [EvalOutcome.panelThenZeroDivisionCrash.injEq, DisplayedPanel.mk.injEq,
    hK, calcular_x50_py, nppow, npmul, hQ]

/-- C2 witness: the amended behavior instantiated at the concrete burden-zero
input, with the positive-charge-mass hypothesis discharged. -/
theorem evaluate_burden_zero_displays_inf_then_crashes_witness :
    (0 : ℝ) < calcular_qe 0.9 diametro (altura_total 10)
    ∧ ∃ p : DisplayedPanel,
        evaluate 0.9 3 0 10 5 4 = EvalOutcome.panelThenZeroDivisionCrash p
        ∧ p.K = PyFloat.posInf
        ∧ p.X50_mm = PyFloat.fin 0 :=
  ⟨Qe0_pos, evaluate_burden_zero_displays_inf_then_crashes 0.9 10 3 5 4 Qe0_pos⟩

/-- C10: for every catalog burden value (6.5 and 3) and every bench height H in
[2, 15], with diameter 76.2 mm, hole deviation W = 0.1 m and the derived spacing
and hole length, the computed uniformity index is strictly positive. -/
theorem evaluateResult_n_RR_pos (B H dens A : ℝ) (fl lin : ℕ)
    (hB : B = 6.5 ∨ B = 3) (hH2 : 2 ≤ H) (hH15 : H ≤ 15) :
    0 < (evaluateResult dens A B H fl lin).n_RR := by
  have hBpos : 0 < B := by rcases hB with h | h <;> rw [h] <;> norm_num
  have hHpos : 0 < H := by linarith
  have hS : 0 < calcular_espacamento H B := by
    unfold calcular_espacamento; nlinarith
  have hL : 0 < altura_total H := altura_total_pos H hHpos
  have hrw : (evaluateResult dens A B H fl lin).n_RR =
      uniformity_index B (calcular_espacamento H B) diametro 0.1 (altura_total H) H := rfl
  rw [hrw]
  unfold uniformity_index
  have h1 : 0 < 2.2 - 14 * (B / diametro) := by
    unfold diametro; rcases hB with h | h <;> rw [h] <;> norm_num
  have h2 : 0 < (1 + (calcular_espacamento H B / B) / 2 : ℝ) ^ (0.5 : ℝ) :=
    Real.rpow_pos_of_pos (by positivity) _
  have h3 : 0 < 1 - 0.1 / B := by rcases hB with h | h <;> rw [h] <;> norm_num
  have h4 : 0 < altura_total H / H := div_pos hL hHpos
  exact mul_pos (mul_pos h1 h2) (mul_pos h3 h4)

/-- C10 witness: the uniformity index is positive at burden 6.5, H = 10. -/
theorem evaluateResult_n_RR_pos_witness : 0 < (evaluateResult 1 1 6.5 10 1 1).n_RR :=
  evaluateResult_n_RR_pos 6.5 10 1 1 1 1 (Or.inl rfl) (by norm_num) (by norm_num)

/-- C7: for every input, the sweep produces exactly one curve per pattern-class
entry, in catalog order (Aberta then Fechada); every curve has exactly 100
points whose sieve openings are the log-spaced sequence from 1 mm (point 0) to
10000 mm (point 99), consecutive openings differing by the constant factor
10^(4/99). -/
theorem sweep_one_curve_per_entry_100_log_points (A Qe K n alt : ℝ) :
    (sweep A Qe K n alt).map FragmentationCurve.name = ["Malha Aberta", "Malha Fechada"]
    ∧ (sweep A Qe K n alt).Forall (fun c => c.points.map Prod.fst = x_mm)
    ∧ (sweep A Qe K n alt).Forall (fun c => c.points.length = 100)
    ∧ x_mm.length = 100
    ∧ x_mm[0]? = some 1
    ∧ x_mm[99]? = some 10000
    ∧ ∀ i : Fin 99, x_mm[(i : ℕ) + 1]? =
        (x_mm[(i : ℕ)]?).map (fun v => v * (10 : ℝ) ^ ((4 : ℝ) / 99)) := by
  refine ⟨rfl, ?_, ?_, x_mm_length, ?_, ?_, ?_⟩
  · simp only [sweep, malha, List.map_cons, List.map_nil, List.Forall, List.map_map]
    have h : (Prod.fst ∘ fun x : ℝ =>
        (x, percent_passing x (calcular_x50 A K Qe * 10) n)) = id := rfl
    rw [h, List.map_id]
    exact ⟨rfl, rfl⟩
  · simp only [sweep, malha, List.map_cons, List.map_nil, List.Forall, List.length_map]
    exact ⟨x_mm_length, x_mm_length⟩
  · rw [x_mm_getElem? 0 (by norm_num)]
    norm_num
  · rw [x_mm_getElem? 99 (by norm_num)]
    have h : (4 * ((99 : ℕ) : ℝ)) / 99 = ((4 : ℕ) : ℝ) := by push_cast; norm_num
    rw [h, Real.rpow_natCast]
    norm_num
  · rintro ⟨i, hi⟩
    rw [x_mm_getElem? (i + 1) (by omega), x_mm_getElem? i (by omega)]
    simp only [Option.map_some']
    congr 1
    rw [← Real.rpow_add (by norm_num : (0:ℝ) < 10)]
    congr 1
    push_cast
    ring

/-- C9: for every input, the per-entry spacing, volume and powder factor of the
sweep loop are never consumed: every produced curve is evaluated with the same
X50 (from the primary evaluation's K) and the same n, so all curves are
pairwise identical point-for-point. -/
theorem sweep_all_curves_identical (A Qe K n alt : ℝ) :
    (sweep A Qe K n alt).Pairwise (fun c₁ c₂ => c₁.points = c₂.points)
    ∧ (sweep A Qe K n alt).Forall
        (fun c => c.points =
          x_mm.map (fun x => (x, percent_passing x (calcular_x50 A K Qe * 10) n))) := by
  constructor
  · simp [sweep, malha, List.pairwise_cons]
  · simp [sweep, malha, List.Forall]

/-- C1: evaluating the sweep at the concrete input (ANFO density 0.90, A = 3,
H = 10, primary pattern Aberta): the two catalog entries have different
per-entry powder factors K_temp, yet every curve the code produces is built
from X50 = calcular_x50(A, K, Qe)·10 with the primary K — the per-entry
K_temp is computed and dropped, so X50 does not vary across pattern classes
as the claim states. -/
theorem sweep_drops_per_entry_powder_factor :
    K_temp Qe0 10 3 ≠ K_temp Qe0 10 6.5
    ∧ (sweep 3 Qe0 K0 n0 10).Forall
        (fun c => c.points =
          x_mm.map (fun x => (x, percent_passing x (calcular_x50 3 K0 Qe0 * 10) n0))) := by
  constructor
  · intro h
    have hQ : 0 < Qe0 := Qe0_pos
    unfold K_temp calcular_espacamento at h
    norm_num at h
    nlinarith
  · simp [sweep, malha, List.Forall]

end Simulador
